import Mathlib

/-!
Shallow embedding of the food-entry core of the HealthCommandCenter repository:
the validation engine, calorie calculator, key encoder, entity assembler and
CRUD handler logic found in
`packages/cdk/lib/lambdas/api/food/create-food/create-food-utils.ts`,
`packages/types/src/index.ts` (the `FoodKeys` helpers), and the
create/get/update/delete handlers under `packages/cdk/lib/lambdas/api/`.

JavaScript numbers are modelled as exact rationals plus the special values
`NaN`, `Infinity` and `-Infinity`; machine floating point is replaced by exact
rational arithmetic (all concrete values appearing in the claims are exactly
representable, and every classification performed by the code—sign test, range
test, rounding at .5—agrees between the two models on the inputs the claims
quantify over).  Nondeterministic inputs of the code (the clock, generated
UUIDs) are passed as explicit parameters.
-/

/-! ### Decimal digit strings -/

/-- Numeric value of a list of decimal digit characters, most significant
first, as produced by JavaScript `Number`/`parseFloat` on a digit string
(`'0'` has code point 48). -/
def digitsVal (l : List Char) : Nat :=
  l.foldl (fun a c => 10 * a + (c.toNat - 48)) 0

/-- The decimal digit character for `n < 10` (used to render numbers exactly
as JavaScript template interpolation renders a nonnegative integer). -/
def digitChar (n : Nat) : Char :=
  if n = 0 then '0' else if n = 1 then '1' else if n = 2 then '2'
  else if n = 3 then '3' else if n = 4 then '4' else if n = 5 then '5'
  else if n = 6 then '6' else if n = 7 then '7' else if n = 8 then '8'
  else if n = 9 then '9' else '*'

/-- Fuel-driven decimal rendering (structurally recursive so that concrete
renderings reduce by evaluation; the fuel is always sufficient because a
number shrinks strictly under division by ten). -/
def natCharsAux : Nat → Nat → List Char
  | 0, _ => []
  | fuel + 1, n =>
    if n < 10 then [digitChar n]
    else natCharsAux fuel (n / 10) ++ [digitChar (n % 10)]

/-- Decimal rendering of a natural number, as JavaScript renders an integral
`number` inside a template literal (for example the `timestamp` interpolated
into a sort key). -/
def natChars (n : Nat) : List Char :=
  natCharsAux (n + 1) n

/-- Decimal rendering of a natural number as a `String`. -/
def natStr (n : Nat) : String :=
  String.mk (natChars n)

/-! ### JavaScript whitespace and `trim` -/

/-- The common whitespace characters removed by JavaScript `String.prototype.trim`
(tab, line feed, vertical tab, form feed, carriage return, space, no-break
space). -/
def isJsSpace (c : Char) : Bool :=
  c.toNat = 9 || c.toNat = 10 || c.toNat = 11 || c.toNat = 12 ||
  c.toNat = 13 || c.toNat = 32 || c.toNat = 160

/-- JavaScript `String.prototype.trim` on a character list: strip whitespace
from both ends. -/
def jsTrim (l : List Char) : List Char :=
  ((l.dropWhile isJsSpace).reverse.dropWhile isJsSpace).reverse

/-- JavaScript `trim` as a `String` operation. -/
def jsTrimStr (s : String) : String :=
  String.mk (jsTrim s.data)

/-! ### The strict numeric-string parser

`parseMacronutrient` tests candidate strings against the regular expression
`^-?\d*\.?\d+([eE][+-]?\d+)?$` (create-food-utils.ts line 66) and then converts
the match with `parseFloat`.  `parseNumericChars` accepts exactly the language
of that expression and returns the exact rational value of the literal;
`none` means the string does not match. -/

/-- Split a character list into its leading run of decimal digits and the
rest. -/
def spanDigits (l : List Char) : List Char × List Char :=
  (l.takeWhile Char.isDigit, l.dropWhile Char.isDigit)

/-- Powers of ten on rationals (`10 ^ n`), written recursively so that concrete parses reduce
by evaluation. -/
def tenPowN : Nat → ℚ
  | 0 => 1
  | n + 1 => tenPowN n * 10

/-- Powers of ten for an integer exponent (scientific-notation scale factor). -/
def qTenPow (e : Int) : ℚ :=
  match e with
  | .ofNat n => tenPowN n
  | .negSucc n => 1 / tenPowN (n + 1)

/-- Parse the digit tail of an exponent (`\d+` anchored to the end). -/
def parseExpDigits (l : List Char) : Option Nat :=
  let p := spanDigits l
  if p.1.isEmpty then none
  else if p.2.isEmpty then some (digitsVal p.1) else none

/-- Parse an optionally signed exponent body (`[+-]?\d+` anchored to the
end). -/
def parseSignedExp : List Char → Option Int
  | '+' :: r => (parseExpDigits r).map (fun n => (n : Int))
  | '-' :: r => (parseExpDigits r).map (fun n => -(n : Int))
  | r => (parseExpDigits r).map (fun n => (n : Int))

/-- Parse the optional scientific-notation suffix `([eE][+-]?\d+)?` anchored
to the end; the result is the exponent (0 when absent). -/
def parseExpTail : List Char → Option Int
  | [] => some 0
  | 'e' :: r => parseSignedExp r
  | 'E' :: r => parseSignedExp r
  | _ => none

/-- Strip the optional leading minus sign of the numeric pattern (the `-?`;
a `+` is not part of the pattern).  Returns whether a minus was present and
the remainder. -/
def stripMinus (l : List Char) : Bool × List Char :=
  match l with
  | '-' :: r => (true, r)
  | _ => (false, l)

/-- Recognize a decimal point followed by its digit run (`\.?\d*` of the
mantissa); `none` when the list does not start with a point. -/
def dotSplit (l : List Char) : Option (List Char × List Char) :=
  match l with
  | '.' :: r2 => some (spanDigits r2)
  | _ => none

/-- Parse the mantissa `\d*\.?\d+` greedily, returning its exact rational
value and the unconsumed rest. -/
def parseMantissa (l : List Char) : Option (ℚ × List Char) :=
  let p := spanDigits l
  match dotSplit p.2 with
  | some q =>
    if q.1.isEmpty then none
    else some ((digitsVal (p.1 ++ q.1) : ℚ) / tenPowN q.1.length, q.2)
  | none => if p.1.isEmpty then none else some ((digitsVal p.1 : ℚ), p.2)

/-- Acceptor/evaluator for the numeric pattern
`^-?\d*\.?\d+([eE][+-]?\d+)?$`: `some q` exactly when the whole list matches,
where `q` is the exact rational value of the literal. -/
def parseNumericChars (l : List Char) : Option ℚ :=
  match parseMantissa (stripMinus l).2 with
  | none => none
  | some mr =>
    match parseExpTail mr.2 with
    | none => none
    | some e => some ((if (stripMinus l).1 then -mr.1 else mr.1) * qTenPow e)

/-! ### JavaScript values -/

/-- The special and finite states of a JavaScript `number`. -/
inductive JSNumber where
  | finite (q : ℚ)
  | posInf
  | negInf
  | nan
deriving DecidableEq

/-- An untyped JavaScript value as it can reach the duck-typed validation
entry points (`FoodInputData` fields are typed `any` in the source).  Object
and array payloads are never inspected by the embedded code paths (they are
rejected by a `typeof` test first), so they carry no data here. -/
inductive JSValue where
  | undef
  | jsNull
  | boolean (b : Bool)
  | num (n : JSNumber)
  | str (s : String)
  | object
  | array
deriving DecidableEq

/-- JavaScript truthiness test (`!v` is `true` exactly on falsy values):
`undefined`, `null`, `false`, `0`, `NaN` and the empty string are falsy. -/
def jsFalsy (v : JSValue) : Bool :=
  match v with
  | .undef => true
  | .jsNull => true
  | .boolean b => !b
  | .num .nan => true
  | .num (.finite q) => q = 0
  | .num _ => false
  | .str s => s = ""
  | .object => false
  | .array => false

/-! ### create-food-utils.ts -/

/-- Raw input to the validation engine
(create-food-utils.ts lines 7-13, every field typed `any`). -/
structure FoodInputData where
  name : JSValue
  protein : JSValue
  carbs : JSValue
  fats : JSValue
  date : JSValue
deriving DecidableEq

/-- Validated food data (create-food-utils.ts lines 18-25).  `calories` is an
integer because it is always the result of `Math.round`. -/
structure ValidatedFoodData where
  name : String
  protein : ℚ
  carbs : ℚ
  fats : ℚ
  calories : ℤ
  date : String
deriving DecidableEq

/-- Calorie derivation, `calculateCalories` (create-food-utils.ts lines 41-44):
`Math.round(protein*4 + carbs*4 + fats*9)`.  JavaScript `Math.round x` is
`⌊x + 1/2⌋` (half-up, toward positive infinity). -/
def calculateCalories (protein carbs fats : ℚ) : ℤ :=
  ⌊(protein * 4 + carbs * 4 + fats * 9) + 1 / 2⌋

/-- Macronutrient parsing, `parseMacronutrient` (create-food-utils.ts lines 52-87).
`null`, `undefined` and `''` parse to 0; objects and arrays are rejected by
the `typeof value === 'object'` test; strings must match
`^-?\d*\.?\d+([eE][+-]?\d+)?$` after trimming and are then evaluated exactly
(`parseNumericChars`); booleans reach `parseFloat` and produce `NaN`, hence
the invalid-value error; finally the sign/range checks run.  `Infinity` is
not `NaN`, not negative, and greater than 10000, so it is "too large";
`-Infinity` is negative. -/
def parseMacronutrient (value : JSValue) (fieldName : String) : Except String ℚ :=
  match value with
  | .jsNull => .ok 0
  | .undef => .ok 0
  | .object => .error ("Invalid " ++ fieldName ++ " value")
  | .array => .error ("Invalid " ++ fieldName ++ " value")
  | .boolean _ => .error ("Invalid " ++ fieldName ++ " value")
  | .str s =>
    if s = "" then .ok 0
    else
      match parseNumericChars (jsTrim s.data) with
      | none => .error ("Invalid " ++ fieldName ++ " value")
      | some parsed =>
        if parsed < 0 then .error (fieldName ++ " cannot be negative")
        else if parsed > 10000 then .error (fieldName ++ " value is too large")
        else .ok parsed
  | .num n =>
    match n with
    | .nan => .error ("Invalid " ++ fieldName ++ " value")
    | .negInf => .error (fieldName ++ " cannot be negative")
    | .posInf => .error (fieldName ++ " value is too large")
    | .finite parsed =>
      if parsed < 0 then .error (fieldName ++ " cannot be negative")
      else if parsed > 10000 then .error (fieldName ++ " value is too large")
      else .ok parsed

/-- Gregorian leap-year test, exactly the formula at create-food-utils.ts
line 118: `(year % 4 === 0 && year % 100 !== 0) || (year % 400 === 0)`. -/
def isLeapYear (year : Nat) : Bool :=
  (year % 4 = 0 && year % 100 ≠ 0) || year % 400 = 0

/-- The `daysInMonth` array of create-food-utils.ts line 114 (index
`month - 1`). -/
def daysInMonthTable (month : Nat) : Nat :=
  [31, 28, 31, 30, 31, 30, 31, 31, 30, 31, 30, 31].getD (month - 1) 0

/-- Number of days in a month of the (proleptic) Gregorian calendar. -/
def gregDaysInMonth (year month : Nat) : Nat :=
  if month = 2 then (if isLeapYear year then 29 else 28)
  else daysInMonthTable month

/-- Model of the JavaScript round-trip check at create-food-utils.ts lines
126-130: `new Date(year, month-1, day)` normalizes out-of-range components,
so the three getters reproduce the inputs exactly when `(year, month, day)`
denotes a real proleptic-Gregorian calendar date.  (The source only reaches
this branch with `100 ≤ year ≤ 9999`, where the `Date` constructor applies no
two-digit-year remapping.) -/
def dateRoundTripOk (year month day : Nat) : Bool :=
  1 ≤ month && month ≤ 12 && 1 ≤ day && day ≤ gregDaysInMonth year month

/-- Date validation, `isValidDateFormat` (create-food-utils.ts lines 94-131): the string must
match `^\d{4}-\d{2}-\d{2}$`, then the components are checked — years below
100 by the explicit month/day/leap logic of lines 108-124 (which also rejects
`year < 1`), larger years by the `Date` round trip. -/
def isValidDateFormat (date : String) : Bool :=
  match date.data with
  | [y1, y2, y3, y4, h1, m1, m2, h2, d1, d2] =>
    if y1.isDigit && y2.isDigit && y3.isDigit && y4.isDigit && h1 = '-' &&
       m1.isDigit && m2.isDigit && h2 = '-' && d1.isDigit && d2.isDigit then
      let year := digitsVal [y1, y2, y3, y4]
      let month := digitsVal [m1, m2]
      let day := digitsVal [d1, d2]
      if year < 100 then
        if year < 1 || year > 9999 then false
        else if month < 1 || month > 12 then false
        else if month = 2 then
          decide (1 ≤ day ∧ day ≤ (if isLeapYear year then 29 else 28))
        else
          decide (1 ≤ day ∧ day ≤ daysInMonthTable month)
      else dateRoundTripOk year month day
    else false
  | _ => false

/-- Name validation, `validateFoodName` (create-food-utils.ts lines 146-162): non-strings and
falsy values fail with "Name is required"; a string is trimmed, must be
non-empty and at most 200 characters, and the trimmed value is returned. -/
def validateFoodName (name : JSValue) : Except String String :=
  match name with
  | .str s =>
    let trimmedName := jsTrimStr s
    if trimmedName = "" then .error "Name is required"
    else if trimmedName.length > 200 then .error "Name is too long (max 200 characters)"
    else .ok trimmedName
  | _ => .error "Name is required"

/-- Input validation, `validateFoodInput` (create-food-utils.ts lines 169-216): name, then
protein, carbs, fats via `parseMacronutrient`, then the date (defaulting to
the current date when falsy — `today` models `getCurrentDate()`); the first
failure is returned.  On success, calories are derived with
`calculateCalories`. -/
def validateFoodInput (today : String) (input : FoodInputData) :
    Except String ValidatedFoodData :=
  match validateFoodName input.name with
  | .error e => .error e
  | .ok nameResult =>
    match parseMacronutrient input.protein "Protein" with
    | .error e => .error e
    | .ok proteinResult =>
      match parseMacronutrient input.carbs "Carbs" with
      | .error e => .error e
      | .ok carbsResult =>
        match parseMacronutrient input.fats "Fats" with
        | .error e => .error e
        | .ok fatsResult =>
          match (if jsFalsy input.date then JSValue.str today else input.date) with
          | .str dateStr =>
            if isValidDateFormat dateStr then
              .ok { name := nameResult, protein := proteinResult,
                    carbs := carbsResult, fats := fatsResult,
                    calories := calculateCalories proteinResult carbsResult fatsResult,
                    date := dateStr }
            else .error "Invalid date format. Use YYYY-MM-DD"
          | _ => .error "Invalid date format. Use YYYY-MM-DD"

/-- The persisted entity (packages/types/src/index.ts lines 49-69). -/
structure FoodEntity where
  PK : String
  SK : String
  entityType : String
  foodId : String
  userId : String
  name : String
  protein : ℚ
  carbs : ℚ
  fats : ℚ
  calories : ℤ
  date : String
  timestamp : Nat
  createdAt : String
  updatedAt : String
deriving DecidableEq

/-- The partition key built by `createFoodEntity`
(create-food-utils.ts line 244): `USER#{userId}`. -/
def foodPK (userId : String) : String :=
  "USER#" ++ userId

/-- The sort key built by `createFoodEntity` (create-food-utils.ts line 245):
`DATE#{date}#TIME#{timestamp}#FOOD#{id}`. -/
def foodSK (date : String) (timestamp : Nat) (id : String) : String :=
  "DATE#" ++ date ++ "#TIME#" ++ natStr timestamp ++ "#FOOD#" ++ id

/-- Entity assembly, `createFoodEntity` (create-food-utils.ts lines 233-259).  `id` models
`foodId || generateFoodId()` already resolved; `timestamp` and `isoNow` model
`now.getTime()` and `now.toISOString()` of the single `new Date()` taken at
line 239. -/
def createFoodEntity (userId : String) (validatedData : ValidatedFoodData)
    (id : String) (timestamp : Nat) (isoNow : String) : FoodEntity where
  PK := foodPK userId
  SK := foodSK validatedData.date timestamp id
  entityType := "FOOD"
  foodId := id
  userId := userId
  name := validatedData.name
  protein := validatedData.protein
  carbs := validatedData.carbs
  fats := validatedData.fats
  calories := validatedData.calories
  date := validatedData.date
  timestamp := timestamp
  createdAt := isoNow
  updatedAt := isoNow

/-- A field value of a JSON response object. -/
inductive FieldVal where
  | s (v : String)
  | q (v : ℚ)
  | i (v : ℤ)
deriving DecidableEq

/-- Response extraction, `extractResponseData` (create-food-utils.ts lines 266-278) as the ordered
key/value list of the object literal it returns. -/
def extractResponseData (entity : FoodEntity) : List (String × FieldVal) :=
  [("foodId", .s entity.foodId),
   ("name", .s entity.name),
   ("protein", .q entity.protein),
   ("carbs", .q entity.carbs),
   ("fats", .q entity.fats),
   ("calories", .i entity.calories),
   ("date", .s entity.date),
   ("createdAt", .s entity.createdAt),
   ("updatedAt", .s entity.updatedAt)]

/-! ### FoodKeys (packages/types/src/index.ts lines 101-119) -/

/-- A DynamoDB key pair. -/
structure KeyPair where
  PK : String
  SK : String
deriving DecidableEq

/-- Key generation, `FoodKeys.create` (packages/types/src/index.ts lines 105-108):
`PK = USER#{userId}`, `SK = FOOD#{date}#{timestamp}#{foodId}`. -/
def FoodKeys.create (userId date : String) (timestamp : Nat) (foodId : String) :
    KeyPair where
  PK := "USER#" ++ userId
  SK := "FOOD#" ++ date ++ "#" ++ natStr timestamp ++ "#" ++ foodId

/-! ### The get/update/delete lookup query

The get-food, update-food and delete-food handlers all locate an entry with a
DynamoDB `Query` of the form `PK = USER#{userId} AND begins_with(SK, 'FOOD#')`
with `FilterExpression foodId = :foodId` and `Limit: 1`
(get-food/index.ts lines 43-53, update-food/index.ts lines 54-64,
delete handler lines 217-227).  DynamoDB applies `Limit` to the items matched
by the key condition *before* the filter expression runs, which the model
reproduces: key-condition filter, then `take 1`, then the `foodId` filter.
The table is the list of stored items in ascending `(PK, SK)` order. -/

/-- The key condition `PK = :pk AND begins_with(SK, :skPrefix)` with
`:pk = USER#{userId}` and `:skPrefix = 'FOOD#'`. -/
def foodKeyCond (userId : String) (e : FoodEntity) : Bool :=
  (e.PK == "USER#" ++ userId) && List.isPrefixOf "FOOD#".data e.SK.data

/-- The lookup shared by the get/update/delete handlers; `none` models the
empty result set (HTTP 404 "Food not found"). -/
def getFoodQuery (table : List FoodEntity) (userId foodId : String) :
    Option FoodEntity :=
  ((((table.filter (foodKeyCond userId)).take 1).filter
    (fun e => e.foodId == foodId)).head?)

/-! ### update-food/index.ts -/

/-- The typed update request body (`FoodInput`,
packages/types/src/index.ts lines 74-81; the handler casts the parsed JSON to
this interface without validation). -/
structure FoodInput where
  name : String
  protein : ℚ
  carbs : ℚ
  fats : ℚ
  date : String
deriving DecidableEq

/-- Storage effect of one run of the update handler
(update-food/index.ts lines 54-166): `notFound` models the 404 path; `moved
old new` models the date-changed path (a `DeleteCommand` on `old`'s exact key
followed by a `PutCommand` of `new`); `updatedInPlace old new` models the
`UpdateCommand` that rewrites `old` (same key) to `new`. -/
inductive UpdateOutcome where
  | notFound
  | moved (old : FoodEntity) (new : FoodEntity)
  | updatedInPlace (old : FoodEntity) (new : FoodEntity)
deriving DecidableEq

/-- The update handler core (update-food/index.ts lines 54-166), after
authentication and body parsing.  It locates the entry with `getFoodQuery`,
recomputes calories, and either deletes/re-puts under `FoodKeys.create`
applied to the *new* date (date changed, lines 81-108) or updates the named
fields in place (lines 129-147).  `now` models `new Date().toISOString()`. -/
def updateFoodHandler (table : List FoodEntity) (userId foodId : String)
    (input : FoodInput) (now : String) : UpdateOutcome :=
  match getFoodQuery table userId foodId with
  | none => .notFound
  | some existingFood =>
    let calories := calculateCalories input.protein input.carbs input.fats
    if existingFood.date ≠ input.date then
      let newKeys := FoodKeys.create userId input.date existingFood.timestamp foodId
      .moved existingFood
        { existingFood with
          PK := newKeys.PK
          SK := newKeys.SK
          name := input.name
          protein := input.protein
          carbs := input.carbs
          fats := input.fats
          calories := calories
          date := input.date
          updatedAt := now }
    else
      .updatedInPlace existingFood
        { existingFood with
          name := input.name
          protein := input.protein
          carbs := input.carbs
          fats := input.fats
          calories := calories
          updatedAt := now }

/-! ### food/create-food/index.ts (the create handler) -/

/-- Lenient exponent prefix of JavaScript `parseFloat`: an `e`/`E` followed by
an optionally signed digit run contributes an exponent; anything else
(including a bare `e`) is trailing garbage and contributes exponent 0. -/
def parseFloatExpLead (l : List Char) : Int :=
  match l with
  | 'e' :: r => parseFloatSignedExpLead r
  | 'E' :: r => parseFloatSignedExpLead r
  | _ => 0
where
  parseFloatSignedExpLead (r : List Char) : Int :=
    match r with
    | '+' :: r2 =>
      let ds := r2.takeWhile Char.isDigit
      if ds.isEmpty then 0 else (digitsVal ds : Int)
    | '-' :: r2 =>
      let ds := r2.takeWhile Char.isDigit
      if ds.isEmpty then 0 else -(digitsVal ds : Int)
    | r2 =>
      let ds := r2.takeWhile Char.isDigit
      if ds.isEmpty then 0 else (digitsVal ds : Int)

/-- Sign handling of lenient `parseFloat`: both `+` and `-` are accepted
(`true` means negative). -/
def stripSign (l : List Char) : Bool × List Char :=
  match l with
  | '-' :: r => (true, r)
  | '+' :: r => (false, r)
  | _ => (false, l)

/-- Fractional part of a lenient `parseFloat` mantissa: a point followed by a
(possibly empty) digit run; anything else contributes nothing. -/
def fracSplit (l : List Char) : List Char × List Char :=
  match l with
  | '.' :: rr => spanDigits rr
  | _ => ([], l)

/-- JavaScript `parseFloat` on a string: skip leading whitespace, accept an
optional `+`/`-`, then the longest decimal-literal prefix (digits, optional
point, optional well-formed exponent); trailing garbage is ignored; `none`
models `NaN` (no digit consumed).  The special `Infinity` literal is not
modelled: the create handler only receives JSON-originated strings, for which
the claims never involve it. -/
def jsParseFloat (l : List Char) : Option ℚ :=
  let sp := stripSign (l.dropWhile isJsSpace)
  let ip := spanDigits sp.2
  let fr := fracSplit ip.2
  if ip.1.isEmpty && fr.1.isEmpty then none
  else
    some ((if sp.1 then (-1 : ℚ) else 1) *
      ((digitsVal (ip.1 ++ fr.1) : ℚ) / tenPowN fr.1.length) *
      qTenPow (parseFloatExpLead fr.2))

/-- Coercion `parseFloat(value) || 0` as used by the create handler
(food/create-food/index.ts lines 89-91): numbers pass through, strings get the
lenient `parseFloat`, and every `NaN` outcome (non-numeric string, `null`,
`undefined`, boolean, object) is replaced by 0.  (JSON bodies cannot carry
non-finite numbers, and array-to-string coercion is not modelled.) -/
def parseFloatOr0 (v : JSValue) : ℚ :=
  match v with
  | .num (.finite q) => q
  | .str s => (jsParseFloat s.data).getD 0
  | _ => 0

/-- The parsed request body of the create handler
(food/create-food/index.ts line 74 destructures `{name, protein, carbs, fats,
date}` from the parsed JSON).  The `date` field is modelled as an optional
string (`none` = absent), the shape every claim and the handler's own tests
exercise. -/
structure CreateBody where
  name : JSValue
  protein : JSValue
  carbs : JSValue
  fats : JSValue
  date : Option String
deriving DecidableEq

/-- Action taken by the create handler after its field checks: either an
immediate 400 response carrying a message (no storage call is made on this
path — the constructor carries no item), or a conditional `PutCommand` of the
assembled item. -/
inductive CreateAction where
  | badRequest (msg : String)
  | attemptPut (item : FoodEntity)
deriving DecidableEq

/-- Outcome of the conditional `PutCommand`
(food/create-food/index.ts lines 122-178). -/
inductive PutOutcome where
  | success
  | conditionalCheckFailed
  | throughputExceeded
  | otherError
deriving DecidableEq

/-- The create handler core (food/create-food/index.ts lines 74-127), after
authentication and JSON parsing: the only field validation is the name check
at lines 78-86; macronutrients are coerced with `parseFloat(x) || 0` and the
date is taken verbatim when truthy (defaulting to the date part of the ISO
instant).  `foodId`, `timestamp` and `isoNow` model the generated
`food-{uuid}` and the `new Date()` taken at lines 97-100. -/
def createFoodHandler (userId : String) (body : CreateBody)
    (foodId : String) (timestamp : Nat) (isoNow : String) : CreateAction :=
  match body.name with
  | .str s =>
    let trimmed := jsTrimStr s
    if trimmed = "" then .badRequest "Name is required"
    else
      let proteinValue := parseFloatOr0 body.protein
      let carbsValue := parseFloatOr0 body.carbs
      let fatsValue := parseFloatOr0 body.fats
      let calories := calculateCalories proteinValue carbsValue fatsValue
      let foodDate :=
        match body.date with
        | some d => if d = "" then String.mk (isoNow.data.takeWhile (fun c => c ≠ 'T')) else d
        | none => String.mk (isoNow.data.takeWhile (fun c => c ≠ 'T'))
      .attemptPut
        { PK := "USER#" ++ userId
          SK := "DATE#" ++ foodDate ++ "#TIME#" ++ natStr timestamp ++ "#FOOD#" ++ foodId
          entityType := "FOOD"
          foodId := foodId
          userId := userId
          name := trimmed
          protein := proteinValue
          carbs := carbsValue
          fats := fatsValue
          calories := calories
          date := foodDate
          timestamp := timestamp
          createdAt := isoNow
          updatedAt := isoNow }
  | _ => .badRequest "Name is required"

/-- HTTP status of a full create-handler run
(food/create-food/index.ts lines 78-178): 400 responses are produced before
any storage call; otherwise the status reflects the `PutCommand` outcome
(201 created, 409 conflict, 503 throttled, 500 otherwise). -/
def createResponseStatus (a : CreateAction) (put : PutOutcome) : Nat :=
  match a with
  | .badRequest _ => 400
  | .attemptPut _ =>
    match put with
    | .success => 201
    | .conditionalCheckFailed => 409
    | .throughputExceeded => 503
    | .otherError => 500

/-! ### Spec-side definitions for refinement comparison -/

/-- The date predicate exactly as the specification words it ("matches
`^\d{4}-\d{2}-\d{2}$` exactly ... then checks the day is valid for the given
month, applying the standard Gregorian leap-year rule"), written from the
spec, not from the source, to be compared against `isValidDateFormat`. -/
def specDateValid (s : String) : Bool :=
  match s.data with
  | [y1, y2, y3, y4, h1, m1, m2, h2, d1, d2] =>
    if y1.isDigit && y2.isDigit && y3.isDigit && y4.isDigit && h1 = '-' &&
       m1.isDigit && m2.isDigit && h2 = '-' && d1.isDigit && d2.isDigit then
      let year := digitsVal [y1, y2, y3, y4]
      let month := digitsVal [m1, m2]
      let day := digitsVal [d1, d2]
      decide (1 ≤ month ∧ month ≤ 12 ∧ 1 ≤ day ∧ day ≤ gregDaysInMonth year month)
    else false
  | _ => false

/-- The year component of a string shaped `\d{4}-\d{2}-\d{2}` (0 when the
string is not of that shape). -/
def dateYearOf (s : String) : Nat :=
  match s.data with
  | [y1, y2, y3, y4, _, _, _, _, _, _] => digitsVal [y1, y2, y3, y4]
  | _ => 0

/-- Whether `pat` occurs as a contiguous substring of `l` (used to state that
a sort key does or does not "bear" a given fragment). -/
def containsSub (pat l : List Char) : Bool :=
  l.tails.any (fun t => List.isPrefixOf pat t)

/-! ### Outcome projections and concrete fixtures -/

/-- The sort key of the re-inserted item of a `moved` update outcome. -/
def movedNewSK : UpdateOutcome → Option String
  | .moved _ n => some n.SK
  | _ => none

/-- Whether a create-handler run stopped at a 400 response (the only path
that performs no storage write). -/
def isBadRequest : CreateAction → Bool
  | .badRequest _ => true
  | _ => false

/-- The protein value the create handler is about to store, when it attempts
a put. -/
def putProtein : CreateAction → Option ℚ
  | .attemptPut item => some item.protein
  | _ => none

/-- The sort key the create handler is about to store, when it attempts a
put. -/
def putSK : CreateAction → Option String
  | .attemptPut item => some item.SK
  | _ => none

/-- A stored entry keyed with the `FoodKeys.create` scheme (as the
`create-food/index.ts` handler writes them), used as a concrete table row. -/
def item0 : FoodEntity where
  PK := "USER#u1"
  SK := "FOOD#2024-01-10#1705#food-1"
  entityType := "FOOD"
  foodId := "food-1"
  userId := "u1"
  name := "Oats"
  protein := 10
  carbs := 20
  fats := 5
  calories := 165
  date := "2024-01-10"
  timestamp := 1705
  createdAt := "2024-01-10T08:00:00.000Z"
  updatedAt := "2024-01-10T08:00:00.000Z"

/-- An update request moving `item0` to a new date. -/
def updInput0 : FoodInput where
  name := "Oats"
  protein := 12
  carbs := 20
  fats := 5
  date := "2024-01-20"

/-- A concrete raw create/validate input (the documented create scenario). -/
def sampleInput : FoodInputData where
  name := .str "Chicken Breast"
  protein := .num (.finite 30)
  carbs := .num (.finite 0)
  fats := .num (.finite 3)
  date := .str "2024-01-15"

/-- The validated form of `sampleInput`. -/
def sampleValidated : ValidatedFoodData where
  name := "Chicken Breast"
  protein := 30
  carbs := 0
  fats := 3
  calories := 147
  date := "2024-01-15"

/-- Decidable equality for `Except`, so that concrete validation outcomes can
be checked by evaluation. -/
instance {e a : Type} [DecidableEq e] [DecidableEq a] : DecidableEq (Except e a)
  | .ok x, .ok y =>
    if h : x = y then .isTrue (h ▸ rfl) else .isFalse fun hc => h (Except.ok.inj hc)
  | .error x, .error y =>
    if h : x = y then .isTrue (h ▸ rfl) else .isFalse fun hc => h (Except.error.inj hc)
  | .ok _, .error _ => .isFalse fun hc => Except.noConfusion hc
  | .error _, .ok _ => .isFalse fun hc => Except.noConfusion hc

/-! ## Helper lemmas -/
theorem digitChar_ne_hash (n : Nat) : digitChar n ≠ '#' := by
  unfold digitChar
  split_ifs <;> decide

theorem digitChar_toNat (n : Nat) (h : n < 10) : (digitChar n).toNat - 48 = n := by
  interval_cases n <;> decide

/-- The rendering is independent of the fuel, as long as the fuel exceeds the
number. -/
theorem natCharsAux_congr (n : Nat) : ∀ f1 f2 : Nat, n < f1 → n < f2 →
    natCharsAux f1 n = natCharsAux f2 n := by
  induction n using Nat.strong_induction_on with
  | _ n ih =>
    intro f1 f2 h1 h2
    match f1, f2 with
    | g1 + 1, g2 + 1 =>
      simp only [natCharsAux]
      by_cases hlt : n < 10
      · rw [if_pos hlt, if_pos hlt]
      · rw [if_neg hlt, if_neg hlt]
        have hdiv : n / 10 < n := Nat.div_lt_self (by omega) (by norm_num)
        rw [ih (n / 10) hdiv g1 g2 (by omega) (by omega)]

/-- The defining recurrence of the decimal rendering. -/
theorem natChars_eq (n : Nat) :
    natChars n = if n < 10 then [digitChar n]
      else natChars (n / 10) ++ [digitChar (n % 10)] := by
  unfold natChars
  show natCharsAux (n + 1) n = _
  simp only [natCharsAux]
  by_cases hlt : n < 10
  · rw [if_pos hlt, if_pos hlt]
  · rw [if_neg hlt, if_neg hlt]
    have hdiv : n / 10 < n := Nat.div_lt_self (by omega) (by norm_num)
    rw [natCharsAux_congr (n / 10) n (n / 10 + 1) (by omega) (by omega)]
    simp only [natCharsAux]

theorem hash_not_mem_natChars (n : Nat) : '#' ∉ natChars n := by
  induction n using Nat.strong_induction_on with
  | _ n ih =>
    rw [natChars_eq]
    split
    · intro hmem
      simp only [List.mem_singleton] at hmem
      exact digitChar_ne_hash n hmem.symm
    · intro hmem
      rcases List.mem_append.mp hmem with h1 | h2
      · exact ih (n / 10) (Nat.div_lt_self (by omega) (by norm_num)) h1
      · simp only [List.mem_singleton] at h2
        exact digitChar_ne_hash (n % 10) h2.symm

theorem digitsVal_natChars (n : Nat) : digitsVal (natChars n) = n := by
  induction n using Nat.strong_induction_on with
  | _ n ih =>
    rw [natChars_eq]
    split
    · next h =>
      simp only [digitsVal, List.foldl]
      rw [digitChar_toNat n h]
      omega
    · next h =>
      have hrec := ih (n / 10) (Nat.div_lt_self (by omega) (by norm_num))
      simp only [digitsVal] at hrec ⊢
      rw [List.foldl_append, hrec]
      simp only [List.foldl]
      rw [digitChar_toNat (n % 10) (Nat.mod_lt n (by norm_num))]
      omega

theorem natChars_injective {a b : Nat} (h : natChars a = natChars b) : a = b := by
  have := congrArg digitsVal h
  rwa [digitsVal_natChars, digitsVal_natChars] at this

/-- Splitting lemma for `'#'`-delimited concatenations: if neither left part
contains the delimiter, equal concatenations have equal parts. -/
theorem append_hash_inj {a b c d : List Char} (ha : '#' ∉ a) (hc : '#' ∉ c)
    (h : a ++ '#' :: b = c ++ '#' :: d) : a = c ∧ b = d := by
  induction a generalizing c with
  | nil =>
    cases c with
    | nil => simpa using h
    | cons y ys =>
      simp only [List.nil_append, List.cons_append, List.cons.injEq] at h
      exact absurd (List.mem_cons_self y ys) (h.1 ▸ hc)
  | cons x xs ih =>
    cases c with
    | nil =>
      simp only [List.cons_append, List.nil_append, List.cons.injEq] at h
      exact absurd (List.mem_cons_self x xs) (h.1 ▸ ha)
    | cons y ys =>
      simp only [List.cons_append, List.cons.injEq] at h
      obtain ⟨hxy, htail⟩ := h
      have ha' : '#' ∉ xs := fun hm => ha (List.mem_cons_of_mem x hm)
      have hc' : '#' ∉ ys := fun hm => hc (List.mem_cons_of_mem y hm)
      obtain ⟨h1, h2⟩ := ih ha' hc' htail
      exact ⟨by rw [hxy, h1], h2⟩

theorem strDataInj {s t : String} (h : s.data = t.data) : s = t := by
  cases s
  cases t
  simp only at h
  rw [h]

theorem digit_ne_hash {c : Char} (h : c.isDigit = true) : c ≠ '#' := by
  rintro rfl
  exact absurd h (by decide)

/-- The character-list shape of a sort key built by `createFoodEntity`. -/
theorem foodSK_data (d : String) (t : Nat) (f : String) :
    (foodSK d t f).data =
      ['D', 'A', 'T', 'E', '#'] ++ (d.data ++ '#' :: (['T', 'I', 'M', 'E', '#'] ++
        (natChars t ++ '#' :: (['F', 'O', 'O', 'D', '#'] ++ f.data)))) := by
  show ("DATE#" ++ d ++ "#TIME#" ++ natStr t ++ "#FOOD#" ++ f).data = _
  simp [String.data_append, natStr]

/-- A string accepted by `isValidDateFormat` contains no `'#'` (it is ten
characters, all digits or dashes). -/
theorem isValidDateFormat_no_hash {s : String} (h : isValidDateFormat s = true) :
    '#' ∉ s.data := by
  unfold isValidDateFormat at h
  split at h
  · next y1 y2 y3 y4 h1 m1 m2 h2 d1 d2 heq =>
    rw [heq]
    split at h
    · next hcond =>
      simp only [Bool.and_eq_true, decide_eq_true_eq] at hcond
      obtain ⟨⟨⟨⟨⟨⟨⟨⟨⟨c1, c2⟩, c3⟩, c4⟩, c5⟩, c6⟩, c7⟩, c8⟩, c9⟩, c10⟩ := hcond
      intro hmem
      simp only [List.mem_cons, List.not_mem_nil, or_false] at hmem
      rcases hmem with rfl | rfl | rfl | rfl | rfl | rfl | rfl | rfl | rfl | rfl
      · exact digit_ne_hash c1 rfl
      · exact digit_ne_hash c2 rfl
      · exact digit_ne_hash c3 rfl
      · exact digit_ne_hash c4 rfl
      · exact absurd c5 (by decide)
      · exact digit_ne_hash c6 rfl
      · exact digit_ne_hash c7 rfl
      · exact absurd c8 (by decide)
      · exact digit_ne_hash c9 rfl
      · exact digit_ne_hash c10 rfl
    · exact absurd h (by simp)
  · exact absurd h (by simp)

/-- Injectivity of the `createFoodEntity` sort-key encoding for
hash-free date components. -/
theorem foodSK_inj {d1 d2 : String} {t1 t2 : Nat} {f1 f2 : String}
    (h1 : '#' ∉ d1.data) (h2 : '#' ∉ d2.data)
    (h : foodSK d1 t1 f1 = foodSK d2 t2 f2) : d1 = d2 ∧ t1 = t2 ∧ f1 = f2 := by
  have hd := congrArg String.data h
  rw [foodSK_data, foodSK_data] at hd
  have hd2 := List.append_cancel_left hd
  obtain ⟨hdate, hrest⟩ := append_hash_inj h1 h2 hd2
  have hrest2 := List.append_cancel_left hrest
  obtain ⟨htime, hrest3⟩ :=
    append_hash_inj (hash_not_mem_natChars t1) (hash_not_mem_natChars t2) hrest2
  have hfood := List.append_cancel_left hrest3
  exact ⟨strDataInj hdate, natChars_injective htime, strDataInj hfood⟩

/-! ## Claim C1 -/

/-- C1: for every userId `u`, date `d`, timestamp `t` and foodId `f`, the key
encoder of `createFoodEntity` produces partition key `USER#{u}` and a sort key
that begins with `DATE#{d}#`, ends with `#FOOD#{f}`, and has the full shape
`DATE#{d}#TIME#{t}#FOOD#{f}`; for a fixed user the encoding is injective:
distinct `(d, t, f)` tuples (with `d` a well-formed date) never produce the
same key. -/
theorem food_key_encoding (u d : String) (t : Nat) (f : String) :
    foodPK u = "USER#" ++ u ∧
    (("DATE#" ++ d ++ "#").data <+: (foodSK d t f).data) ∧
    (("#FOOD#" ++ f).data <:+ (foodSK d t f).data) ∧
    foodSK d t f = "DATE#" ++ d ++ "#TIME#" ++ natStr t ++ "#FOOD#" ++ f ∧
    (∀ (d1 : String) (t1 : Nat) (f1 : String) (d2 : String) (t2 : Nat) (f2 : String),
      isValidDateFormat d1 = true → isValidDateFormat d2 = true →
      foodSK d1 t1 f1 = foodSK d2 t2 f2 → d1 = d2 ∧ t1 = t2 ∧ f1 = f2) := by
  refine ⟨rfl, ?_, ?_, rfl, ?_⟩
  · refine ⟨['T', 'I', 'M', 'E', '#'] ++ (natChars t ++ '#' ::
      (['F', 'O', 'O', 'D', '#'] ++ f.data)), ?_⟩
    rw [foodSK_data]
    simp [String.data_append]
  · refine ⟨['D', 'A', 'T', 'E', '#'] ++ (d.data ++ '#' ::
      (['T', 'I', 'M', 'E', '#'] ++ natChars t)), ?_⟩
    rw [foodSK_data]
    simp [String.data_append]
  · intro d1 t1 f1 d2 t2 f2 hv1 hv2 heq
    exact foodSK_inj (isValidDateFormat_no_hash hv1) (isValidDateFormat_no_hash hv2) heq

/-- Witness for C1: the injectivity clause applied at concrete keys. -/
theorem food_key_encoding_witness :
    "2024-01-15" = "2024-01-15" ∧ (1705312800000 : Nat) = 1705312800000 ∧
      "food-a" = "food-a" :=
  (food_key_encoding "user-1" "2024-01-15" 1705312800000 "food-a").2.2.2.2
    "2024-01-15" 1705312800000 "food-a" "2024-01-15" 1705312800000 "food-a"
    (by decide) (by decide) rfl

/-! ## Claim C2 -/

/-- An entity assembled by `createFoodEntity` never satisfies the lookup key
condition of the get/update/delete handlers: its sort key starts with
`DATE#`, the query demands the prefix `FOOD#`. -/
theorem createFoodEntity_fails_keyCond (qu u : String) (vd : ValidatedFoodData)
    (id : String) (ts : Nat) (iso : String) :
    foodKeyCond qu (createFoodEntity u vd id ts iso) = false := by
  unfold foodKeyCond
  have hsk : (createFoodEntity u vd id ts iso).SK = foodSK vd.date ts id := rfl
  rw [hsk, foodSK_data]
  simp [List.isPrefixOf]

/-- C2: every entity assembled by `createFoodEntity` has a sort key beginning
with `DATE#`, while the get/update/delete lookup requires the sort-key prefix
`FOOD#`; hence on any table holding only entities assembled by
`createFoodEntity`, the lookup returns no item — a create via
`createFoodEntity` followed by a get of the same foodId is the not-found
outcome. -/
theorem create_then_get_not_found (u : String) (vd : ValidatedFoodData)
    (id : String) (ts : Nat) (iso : String)
    (table : List FoodEntity) (qu qf : String)
    (hall : ∀ e ∈ table, ∃ u0 vd0 id0 ts0 iso0, e = createFoodEntity u0 vd0 id0 ts0 iso0) :
    ("DATE#".data <+: (createFoodEntity u vd id ts iso).SK.data) ∧
    List.isPrefixOf "FOOD#".data (createFoodEntity u vd id ts iso).SK.data = false ∧
    getFoodQuery table qu qf = none := by
  refine ⟨?_, ?_, ?_⟩
  · have hsk : (createFoodEntity u vd id ts iso).SK = foodSK vd.date ts id := rfl
    rw [hsk]
    exact ⟨_, (foodSK_data vd.date ts id).symm⟩
  · have hsk : (createFoodEntity u vd id ts iso).SK = foodSK vd.date ts id := rfl
    rw [hsk, foodSK_data]
    simp [List.isPrefixOf]
  · unfold getFoodQuery
    have hfilter : table.filter (foodKeyCond qu) = [] := by
      rw [List.filter_eq_nil_iff]
      intro e he
      obtain ⟨u0, vd0, id0, ts0, iso0, rfl⟩ := hall e he
      simp [createFoodEntity_fails_keyCond]
    rw [hfilter]
    rfl

/-- Witness for C2: a concrete one-element table produced by
`createFoodEntity`, queried back for the foodId that was just stored, yields
the not-found outcome. -/
theorem create_then_get_not_found_witness :
    getFoodQuery
      [createFoodEntity "user-1"
        { name := "Chicken Breast", protein := 30, carbs := 0, fats := 3,
          calories := 147, date := "2024-01-15" }
        "food-a" 1705312800000 "2024-01-15T10:00:00.000Z"]
      "user-1" "food-a" = none :=
  (create_then_get_not_found "user-1"
    { name := "Chicken Breast", protein := 30, carbs := 0, fats := 3,
      calories := 147, date := "2024-01-15" }
    "food-a" 1705312800000 "2024-01-15T10:00:00.000Z"
    [createFoodEntity "user-1"
      { name := "Chicken Breast", protein := 30, carbs := 0, fats := 3,
        calories := 147, date := "2024-01-15" }
      "food-a" 1705312800000 "2024-01-15T10:00:00.000Z"]
    "user-1" "food-a"
    (by
      intro e he
      simp only [List.mem_singleton] at he
      exact ⟨_, _, _, _, _, he⟩)).2.2

/-! ## Claim C3 -/

/-- Every successful validation stores calories derived from the stored
macronutrients by `calculateCalories`. -/
theorem validateFoodInput_calories {today : String} {input : FoodInputData}
    {d : ValidatedFoodData} (h : validateFoodInput today input = .ok d) :
    d.calories = calculateCalories d.protein d.carbs d.fats := by
  unfold validateFoodInput at h
  repeat' split at h
  all_goals first
    | exact Except.noConfusion h
    | (have hd := Except.ok.inj h
       subst hd
       rfl)

/-- C3: for macronutrient inputs in `[0, 10000]` the calorie calculator
returns `round(protein*4 + carbs*4 + fats*9)` with ties at .5 rounded upward
(Mathlib `round` is exactly round-half-up); `(10.875, 0, 0)` gives 44 (a 43.5
tie) and `(30, 0, 3)` gives 147; and every stored entry satisfies the
equation. -/
theorem calorie_formula (p c f : ℚ)
    (hp0 : 0 ≤ p) (hp1 : p ≤ 10000) (hc0 : 0 ≤ c) (hc1 : c ≤ 10000)
    (hf0 : 0 ≤ f) (hf1 : f ≤ 10000) :
    calculateCalories p c f = round (p * 4 + c * 4 + f * 9) ∧
    calculateCalories 10.875 0 0 = 44 ∧
    calculateCalories 30 0 3 = 147 ∧
    (∀ (today : String) (input : FoodInputData) (d : ValidatedFoodData),
      validateFoodInput today input = .ok d →
      d.calories = calculateCalories d.protein d.carbs d.fats) := by
  refine ⟨?_, ?_, ?_, fun _ _ _ h => validateFoodInput_calories h⟩
  · rw [calculateCalories, round_eq]
  · norm_num [calculateCalories]
  · norm_num [calculateCalories]

/-- Witness for C3 at the boundary-included input `(30, 0, 3)`. -/
theorem calorie_formula_witness :
    calculateCalories 30 0 3 = round ((30 : ℚ) * 4 + 0 * 4 + 3 * 9) :=
  (calorie_formula 30 0 3 (by norm_num) (by norm_num) (by norm_num)
    (by norm_num) (by norm_num) (by norm_num)).1

/-! ## Claim C4 -/

/-- C4: `validateFoodInput` applies its rules in the fixed order name,
protein, carbs, fats, date, and returns the error of the first failing rule
only; in particular when all five fields are simultaneously invalid the
reported error is the name error. -/
theorem validation_first_error (today : String) (input : FoodInputData) :
    (∀ e, validateFoodName input.name = .error e →
      validateFoodInput today input = .error e) ∧
    (∀ n e, validateFoodName input.name = .ok n →
      parseMacronutrient input.protein "Protein" = .error e →
      validateFoodInput today input = .error e) ∧
    (∀ n p e, validateFoodName input.name = .ok n →
      parseMacronutrient input.protein "Protein" = .ok p →
      parseMacronutrient input.carbs "Carbs" = .error e →
      validateFoodInput today input = .error e) ∧
    (∀ n p c e, validateFoodName input.name = .ok n →
      parseMacronutrient input.protein "Protein" = .ok p →
      parseMacronutrient input.carbs "Carbs" = .ok c →
      parseMacronutrient input.fats "Fats" = .error e →
      validateFoodInput today input = .error e) ∧
    (∀ n p c f, validateFoodName input.name = .ok n →
      parseMacronutrient input.protein "Protein" = .ok p →
      parseMacronutrient input.carbs "Carbs" = .ok c →
      parseMacronutrient input.fats "Fats" = .ok f →
      (∀ s, (if jsFalsy input.date then JSValue.str today else input.date) = .str s →
        isValidDateFormat s = false) →
      validateFoodInput today input = .error "Invalid date format. Use YYYY-MM-DD") ∧
    (∀ e ep ec ef, validateFoodName input.name = .error e →
      parseMacronutrient input.protein "Protein" = .error ep →
      parseMacronutrient input.carbs "Carbs" = .error ec →
      parseMacronutrient input.fats "Fats" = .error ef →
      (∀ s, (if jsFalsy input.date then JSValue.str today else input.date) = .str s →
        isValidDateFormat s = false) →
      validateFoodInput today input = .error e) := by
  refine ⟨?_, ?_, ?_, ?_, ?_, ?_⟩
  · intro e h
    unfold validateFoodInput
    rw [h]
  · intro n e h1 h2
    unfold validateFoodInput
    rw [h1, h2]
  · intro n p e h1 h2 h3
    unfold validateFoodInput
    rw [h1, h2, h3]
  · intro n p c e h1 h2 h3 h4
    unfold validateFoodInput
    rw [h1, h2, h3, h4]
  · intro n p c f h1 h2 h3 h4 h5
    unfold validateFoodInput
    rw [h1, h2, h3, h4]
    rcases hdv : (if jsFalsy input.date then JSValue.str today else input.date) with
      _ | _ | b | m | s | _ | _ <;> simp only
    rw [h5 s hdv]
    simp
  · intro e ep ec ef h1 _h2 _h3 _h4 _h5
    unfold validateFoodInput
    rw [h1]

/-- Witness for C4: an input whose name, protein, carbs, fats and date are all
invalid reports exactly the name error. -/
theorem validation_first_error_witness :
    validateFoodInput "2026-10-11"
      { name := .num (.finite 5), protein := .str "abc", carbs := .object,
        fats := .num .nan, date := .str "2024-13-01" } = .error "Name is required" :=
  (validation_first_error "2026-10-11"
    { name := .num (.finite 5), protein := .str "abc", carbs := .object,
      fats := .num .nan, date := .str "2024-13-01" }).2.2.2.2.2
    "Name is required" "Invalid Protein value" "Invalid Carbs value"
    "Invalid Fats value" (by decide) (by decide) (by decide) (by decide)
    (by
      intro s hs
      have : s = "2024-13-01" := by
        have := JSValue.str.inj hs
        exact this.symm
      rw [this]
      decide)

/-! ### Evaluation lemmas for concrete numeric strings

Rational arithmetic does not reduce inside the kernel, so the handful of
concrete parses used by witnesses are evaluated once here by rewriting the
character-level steps (which do reduce) and finishing with `norm_num`. -/

theorem qTenPow_zero : qTenPow 0 = 1 := rfl

theorem qTenPow_two : qTenPow 2 = 100 := by
  show ((1 : ℚ) * 10) * 10 = 100
  norm_num

theorem parseMantissa_ten : parseMantissa ['1', '0'] = some (10, []) := by
  rw [parseMantissa, show spanDigits ['1', '0'] = (['1', '0'], []) from by decide]
  dsimp only
  rw [show dotSplit ([] : List Char) = none from rfl]
  dsimp only
  rw [show digitsVal ['1', '0'] = 10 from by decide]
  norm_num

theorem parseNumericChars_ten : parseNumericChars ['1', '0'] = some 10 := by
  rw [parseNumericChars, show stripMinus ['1', '0'] = (false, ['1', '0']) from by decide]
  dsimp only
  rw [parseMantissa_ten]
  dsimp only [parseExpTail]
  rw [qTenPow_zero]
  norm_num

theorem parseMantissa_one_e2 : parseMantissa ['1', 'e', '2'] = some (1, ['e', '2']) := by
  rw [parseMantissa, show spanDigits ['1', 'e', '2'] = (['1'], ['e', '2']) from by decide]
  dsimp only
  rw [show dotSplit ['e', '2'] = none from by decide]
  dsimp only
  rw [show digitsVal ['1'] = 1 from by decide]
  norm_num

theorem parseNumericChars_one_e2 : parseNumericChars ['1', 'e', '2'] = some 100 := by
  rw [parseNumericChars,
    show stripMinus ['1', 'e', '2'] = (false, ['1', 'e', '2']) from by decide]
  dsimp only
  rw [parseMantissa_one_e2]
  dsimp only
  rw [show parseExpTail ['e', '2'] = some 2 from by decide]
  dsimp only
  rw [qTenPow_two]
  norm_num

theorem parseMantissa_five : parseMantissa ['5'] = some (5, []) := by
  rw [parseMantissa, show spanDigits ['5'] = (['5'], []) from by decide]
  dsimp only
  rw [show dotSplit ([] : List Char) = none from rfl]
  dsimp only
  rw [show digitsVal ['5'] = 5 from by decide]
  norm_num

theorem parseNumericChars_neg_five : parseNumericChars ['-', '5'] = some (-5) := by
  rw [parseNumericChars, show stripMinus ['-', '5'] = (true, ['5']) from by decide]
  dsimp only
  rw [parseMantissa_five]
  dsimp only [parseExpTail]
  rw [qTenPow_zero]
  norm_num

/-! ## Claim C5 -/

/-- C5: `parseMacronutrient` maps `null`, `undefined` and the empty string to
0; a parsed numeric value is "cannot be negative" exactly when below 0, "too
large" exactly when above 10000, and returned otherwise, with 0 and 10000
accepted; `Infinity` is too large, `-Infinity` negative. -/
theorem parse_macronutrient_values (fieldName : String) :
    parseMacronutrient .jsNull fieldName = .ok 0 ∧
    parseMacronutrient .undef fieldName = .ok 0 ∧
    parseMacronutrient (.str "") fieldName = .ok 0 ∧
    (∀ q : ℚ, parseMacronutrient (.num (.finite q)) fieldName =
      (if q < 0 then .error (fieldName ++ " cannot be negative")
       else if q > 10000 then .error (fieldName ++ " value is too large")
       else .ok q)) ∧
    (∀ (s : String) (q : ℚ), s ≠ "" → parseNumericChars (jsTrim s.data) = some q →
      parseMacronutrient (.str s) fieldName =
        (if q < 0 then .error (fieldName ++ " cannot be negative")
         else if q > 10000 then .error (fieldName ++ " value is too large")
         else .ok q)) ∧
    parseMacronutrient (.num .posInf) fieldName = .error (fieldName ++ " value is too large") ∧
    parseMacronutrient (.num .negInf) fieldName = .error (fieldName ++ " cannot be negative") ∧
    parseMacronutrient (.num (.finite 0)) fieldName = .ok 0 ∧
    parseMacronutrient (.num (.finite 10000)) fieldName = .ok 10000 := by
  refine ⟨rfl, rfl, rfl, fun q => rfl, ?_, rfl, rfl, ?_, ?_⟩
  · intro s q hs hp
    simp only [parseMacronutrient]
    rw [if_neg hs, hp]
  · simp only [parseMacronutrient]
    norm_num
  · simp only [parseMacronutrient]
    norm_num

/-- Witness for C5: the string path applied to `"  10  "`, whose trimmed form
parses to 10 and is within range. -/
theorem parse_macronutrient_values_witness :
    parseMacronutrient (.str "  10  ") "Protein" =
      (if (10 : ℚ) < 0 then .error ("Protein" ++ " cannot be negative")
       else if (10 : ℚ) > 10000 then .error ("Protein" ++ " value is too large")
       else .ok 10) :=
  (parse_macronutrient_values "Protein").2.2.2.2.1 "  10  " 10 (by decide)
    (by simp [show jsTrim ("  10  " : String).data = ['1', '0'] from by decide,
      parseNumericChars_ten])

/-! ## Claim C6 -/

/-- Distinct validation messages: the "cannot be negative" message never
coincides with the "Invalid ... value" message, for any field label. -/
theorem neg_msg_ne_invalid (fn : String) :
    fn ++ " cannot be negative" ≠ "Invalid " ++ fn ++ " value" := by
  intro h
  have hl := congrArg String.length h
  simp only [String.length_append,
    show (" cannot be negative" : String).length = 19 from rfl,
    show ("Invalid " : String).length = 8 from rfl,
    show (" value" : String).length = 6 from rfl] at hl
  omega

/-- Distinct validation messages: the "value is too large" message never
coincides with the "Invalid ... value" message, for any field label. -/
theorem large_msg_ne_invalid (fn : String) :
    fn ++ " value is too large" ≠ "Invalid " ++ fn ++ " value" := by
  intro h
  have hl := congrArg String.length h
  simp only [String.length_append,
    show (" value is too large" : String).length = 19 from rfl,
    show ("Invalid " : String).length = 8 from rfl,
    show (" value" : String).length = 6 from rfl] at hl
  omega

/-- Counterexample to C6 as stated: the numeric pattern only allows a *minus*
sign, so the signed string `"+5"` is not accepted — it yields the
invalid-value error instead of parsing to 5. -/
theorem plus_sign_string_rejected :
    parseMacronutrient (.str "+5") "Protein" = .error "Invalid Protein value" ∧
    parseMacronutrient (.str "+5") "Protein" ≠ .ok 5 := by
  constructor
  · rfl
  · decide

/-- C6 (amended): a non-empty string input is rejected with
`Invalid {fieldLabel} value` exactly when its trimmed form fails the numeric
pattern `-?\d*\.?\d+([eE][+-]?\d+)?` (optional *minus* sign only — a leading
`+` is not permitted); `"1e2"` and `"  10  "` are accepted, `"-5"` passes the
pattern (and then fails the sign range check), and every object, array or
boolean value yields the invalid-value error. -/
theorem string_numeric_pattern (fieldName s : String) (hs : s ≠ "") :
    (parseMacronutrient (.str s) fieldName = .error ("Invalid " ++ fieldName ++ " value")
      ↔ parseNumericChars (jsTrim s.data) = none) ∧
    parseMacronutrient .object fieldName = .error ("Invalid " ++ fieldName ++ " value") ∧
    parseMacronutrient .array fieldName = .error ("Invalid " ++ fieldName ++ " value") ∧
    (∀ b, parseMacronutrient (.boolean b) fieldName =
      .error ("Invalid " ++ fieldName ++ " value")) ∧
    parseMacronutrient (.str "1e2") fieldName = .ok 100 ∧
    parseMacronutrient (.str "  10  ") fieldName = .ok 10 ∧
    parseMacronutrient (.str "-5") fieldName = .error (fieldName ++ " cannot be negative") := by
  refine ⟨?_, rfl, rfl, fun b => rfl, ?_, ?_, ?_⟩
  · simp only [parseMacronutrient]
    rw [if_neg hs]
    cases hp : parseNumericChars (jsTrim s.data) with
    | none => simp
    | some q =>
      simp only [hp]
      constructor
      · intro h
        split_ifs at h with h1 h2
        · exact absurd (Except.error.inj h) (neg_msg_ne_invalid fieldName)
        · exact absurd (Except.error.inj h) (large_msg_ne_invalid fieldName)
      · intro h
        exact Option.noConfusion h
  · simp only [parseMacronutrient]
    rw [if_neg (show ("1e2" : String) ≠ "" by decide),
      show jsTrim ("1e2" : String).data = ['1', 'e', '2'] from by decide,
      parseNumericChars_one_e2]
    norm_num
  · simp only [parseMacronutrient]
    rw [if_neg (show ("  10  " : String) ≠ "" by decide),
      show jsTrim ("  10  " : String).data = ['1', '0'] from by decide,
      parseNumericChars_ten]
    norm_num
  · simp only [parseMacronutrient]
    rw [if_neg (show ("-5" : String) ≠ "" by decide),
      show jsTrim ("-5" : String).data = ['-', '5'] from by decide,
      parseNumericChars_neg_five]
    norm_num

/-- Witness for C6 (amended): at a concrete non-empty string, the accepted
example `"1e2"` evaluates to 100. -/
theorem string_numeric_pattern_witness :
    parseMacronutrient (.str "1e2") "Protein" = .ok 100 :=
  (string_numeric_pattern "Protein" "x" (by decide)).2.2.2.2.1

/-! ## Claim C7 -/

theorem digit_toNat_le {c : Char} (h : c.isDigit = true) : c.toNat - 48 ≤ 9 := by
  simp [Char.isDigit] at h
  obtain ⟨h1, h2⟩ := h
  have h1' : (48 : UInt32).toNat ≤ c.val.toNat := h1
  have h2' : c.val.toNat ≤ (57 : UInt32).toNat := h2
  rw [show (48 : UInt32).toNat = 48 from rfl] at h1'
  rw [show (57 : UInt32).toNat = 57 from rfl] at h2'
  show c.val.toNat - 48 ≤ 9
  omega

/-- Four digit characters denote a number of at most 9999. -/
theorem digitsVal4_le {a b c d : Char} (ha : a.isDigit = true) (hb : b.isDigit = true)
    (hc : c.isDigit = true) (hd : d.isDigit = true) : digitsVal [a, b, c, d] ≤ 9999 := by
  have h1 := digit_toNat_le ha
  have h2 := digit_toNat_le hb
  have h3 := digit_toNat_le hc
  have h4 := digit_toNat_le hd
  simp only [digitsVal, List.foldl]
  omega

/-- The component check of `isValidDateFormat` agrees with the plain
Gregorian month/day predicate exactly on years at least 1: the `year < 100`
branch re-implements the same month/day table and additionally rejects year
0, and the `Date` round trip covers the rest. -/
theorem dateBranch_iff (year month day : Nat) (hy : year ≤ 9999) :
    (if year < 100 then
       (if year < 1 || year > 9999 then false
        else if month < 1 || month > 12 then false
        else if month = 2 then
          decide (1 ≤ day ∧ day ≤ (if isLeapYear year then 29 else 28))
        else decide (1 ≤ day ∧ day ≤ daysInMonthTable month))
     else dateRoundTripOk year month day) = true ↔
    (decide (1 ≤ month ∧ month ≤ 12 ∧ 1 ≤ day ∧ day ≤ gregDaysInMonth year month) = true
      ∧ 1 ≤ year) := by
  unfold dateRoundTripOk gregDaysInMonth
  split_ifs <;> simp_all <;> omega

/-- C7 (amended): `isValidDateFormat` accepts a string exactly when it
matches `^\d{4}-\d{2}-\d{2}$`, the day is valid for the month under the
Gregorian leap-year rule, **and** the year is at least 0001 (the code's
`year < 1` check additionally rejects the all-zero year, which the plain
regex-plus-Gregorian reading would accept); all the documented examples
behave as the claim lists them. -/
theorem date_validation (s : String) :
    (isValidDateFormat s = true ↔ (specDateValid s = true ∧ 1 ≤ dateYearOf s)) ∧
    isValidDateFormat "2024-02-29" = true ∧
    isValidDateFormat "2000-02-29" = true ∧
    isValidDateFormat "2023-02-29" = false ∧
    isValidDateFormat "1900-02-29" = false ∧
    isValidDateFormat "2024-13-01" = false ∧
    isValidDateFormat "2024-1-15" = false := by
  refine ⟨?_, by decide, by decide, by decide, by decide, by decide, by decide⟩
  cases s with
  | mk l =>
    unfold isValidDateFormat specDateValid dateYearOf
    rcases l with _ | ⟨c1, _ | ⟨c2, _ | ⟨c3, _ | ⟨c4, _ | ⟨c5, _ | ⟨c6, _ | ⟨c7,
      _ | ⟨c8, _ | ⟨c9, _ | ⟨c10, _ | ⟨c11, rest⟩⟩⟩⟩⟩⟩⟩⟩⟩⟩⟩ <;>
      try (simp; done)
    dsimp only
    by_cases hcond : (c1.isDigit && c2.isDigit && c3.isDigit && c4.isDigit &&
      decide (c5 = '-') && c6.isDigit && c7.isDigit && decide (c8 = '-') &&
      c9.isDigit && c10.isDigit) = true
    · rw [if_pos hcond, if_pos hcond]
      simp only [Bool.and_eq_true, decide_eq_true_eq] at hcond
      obtain ⟨⟨⟨⟨⟨⟨⟨⟨⟨h1, h2⟩, h3⟩, h4⟩, h5⟩, h6⟩, h7⟩, h8⟩, h9⟩, h10⟩ := hcond
      exact dateBranch_iff _ _ _ (digitsVal4_le h1 h2 h3 h4)
    · rw [if_neg hcond, if_neg hcond]
      simp

/-- Counterexample to C7 as stated: the all-zero year `0000-01-01` matches
the regex and is a perfectly good Gregorian month/day combination, yet the
validator rejects it (the `year < 1` branch), so "accepts exactly when the
regex matches and the day is valid for the month" fails at this input. -/
theorem date_year_zero_rejected :
    isValidDateFormat "0000-01-01" = false ∧ specDateValid "0000-01-01" = true := by
  decide

/-! ## Claim C8 -/

/-- C8: `extractResponseData` returns exactly the nine fields `foodId`,
`name`, `protein`, `carbs`, `fats`, `calories`, `date`, `createdAt`,
`updatedAt` (in that order), each equal to the corresponding entity field,
and none of `PK`, `SK`, `entityType`, `userId`, `timestamp`; in particular
this holds for the response assembled from any successfully validated
input. -/
theorem response_shape (entity : FoodEntity) :
    extractResponseData entity =
      [("foodId", .s entity.foodId), ("name", .s entity.name),
       ("protein", .q entity.protein), ("carbs", .q entity.carbs),
       ("fats", .q entity.fats), ("calories", .i entity.calories),
       ("date", .s entity.date), ("createdAt", .s entity.createdAt),
       ("updatedAt", .s entity.updatedAt)] ∧
    (extractResponseData entity).map Prod.fst =
      ["foodId", "name", "protein", "carbs", "fats", "calories", "date",
       "createdAt", "updatedAt"] ∧
    "PK" ∉ (extractResponseData entity).map Prod.fst ∧
    "SK" ∉ (extractResponseData entity).map Prod.fst ∧
    "entityType" ∉ (extractResponseData entity).map Prod.fst ∧
    "userId" ∉ (extractResponseData entity).map Prod.fst ∧
    "timestamp" ∉ (extractResponseData entity).map Prod.fst ∧
    (∀ (u today : String) (input : FoodInputData) (d : ValidatedFoodData)
       (id : String) (ts : Nat) (iso : String),
      validateFoodInput today input = .ok d →
      extractResponseData (createFoodEntity u d id ts iso) =
        [("foodId", .s id), ("name", .s d.name), ("protein", .q d.protein),
         ("carbs", .q d.carbs), ("fats", .q d.fats), ("calories", .i d.calories),
         ("date", .s d.date), ("createdAt", .s iso), ("updatedAt", .s iso)]) := by
  refine ⟨rfl, rfl, by simp [extractResponseData], by simp [extractResponseData],
    by simp [extractResponseData], by simp [extractResponseData],
    by simp [extractResponseData], fun u today input d id ts iso _h => rfl⟩

/-- Witness for C8: the documented create scenario, validated and assembled,
yields exactly the nine public fields. -/
theorem response_shape_witness :
    extractResponseData
      (createFoodEntity "user-1" sampleValidated "food-a" 1705312800000
        "2024-01-15T10:00:00.000Z") =
      [("foodId", .s "food-a"), ("name", .s sampleValidated.name),
       ("protein", .q sampleValidated.protein), ("carbs", .q sampleValidated.carbs),
       ("fats", .q sampleValidated.fats), ("calories", .i sampleValidated.calories),
       ("date", .s sampleValidated.date), ("createdAt", .s "2024-01-15T10:00:00.000Z"),
       ("updatedAt", .s "2024-01-15T10:00:00.000Z")] :=
  (response_shape
      (createFoodEntity "user-1" sampleValidated "food-a" 1705312800000
        "2024-01-15T10:00:00.000Z")).2.2.2.2.2.2.2
    "user-1" "2026-01-01" sampleInput sampleValidated "food-a" 1705312800000
    "2024-01-15T10:00:00.000Z"
    (by
      unfold validateFoodInput sampleInput sampleValidated
      rw [show validateFoodName (JSValue.str "Chicken Breast") =
        .ok "Chicken Breast" from by decide]
      rw [show parseMacronutrient (JSValue.num (.finite 30)) "Protein" = .ok 30 from by
        simp only [parseMacronutrient]
        norm_num]
      rw [show parseMacronutrient (JSValue.num (.finite 0)) "Carbs" = .ok 0 from by
        simp only [parseMacronutrient]
        norm_num]
      rw [show parseMacronutrient (JSValue.num (.finite 3)) "Fats" = .ok 3 from by
        simp only [parseMacronutrient]
        norm_num]
      rw [show jsFalsy (JSValue.str "2024-01-15") = false from by decide]
      simp only [Bool.false_eq_true, if_false]
      rw [show isValidDateFormat "2024-01-15" = true from by decide]
      simp only [if_true]
      rw [show calculateCalories 30 0 3 = 147 from by norm_num [calculateCalories]])

/-! ## Claim C9 -/

/-- C9 (amended): when the update handler finds the stored entry and the new
date differs, it deletes the record at its old key and re-inserts it under
the freshly encoded key `FOOD#{newDate}#{timestamp}#{foodId}` — the
`FoodKeys.create` scheme, whose key bears the *new date* under the `FOOD#`
tag (not a `DATE#` tag) — recomputing calories from the new macronutrients,
keeping `createdAt`, `foodId` and `timestamp` unchanged and refreshing
`updatedAt`; when the date is unchanged the key and `createdAt` are
preserved and only `name`, `protein`, `carbs`, `fats`, `calories` and
`updatedAt` change. -/
theorem update_date_change (table : List FoodEntity) (userId foodId : String)
    (input : FoodInput) (now : String) (e : FoodEntity)
    (hfind : getFoodQuery table userId foodId = some e) :
    (e.date ≠ input.date →
      ∃ n, updateFoodHandler table userId foodId input now = .moved e n ∧
        n.PK = "USER#" ++ userId ∧
        n.SK = "FOOD#" ++ input.date ++ "#" ++ natStr e.timestamp ++ "#" ++ foodId ∧
        (("FOOD#" ++ input.date ++ "#").data <+: n.SK.data) ∧
        n.calories = calculateCalories input.protein input.carbs input.fats ∧
        n.createdAt = e.createdAt ∧ n.foodId = e.foodId ∧ n.timestamp = e.timestamp ∧
        n.updatedAt = now ∧ n.date = input.date ∧ n.name = input.name ∧
        n.protein = input.protein ∧ n.carbs = input.carbs ∧ n.fats = input.fats) ∧
    (e.date = input.date →
      ∃ n, updateFoodHandler table userId foodId input now = .updatedInPlace e n ∧
        n.PK = e.PK ∧ n.SK = e.SK ∧ n.createdAt = e.createdAt ∧ n.date = e.date ∧
        n.timestamp = e.timestamp ∧ n.foodId = e.foodId ∧ n.userId = e.userId ∧
        n.entityType = e.entityType ∧ n.name = input.name ∧
        n.protein = input.protein ∧ n.carbs = input.carbs ∧ n.fats = input.fats ∧
        n.calories = calculateCalories input.protein input.carbs input.fats ∧
        n.updatedAt = now) := by
  constructor
  · intro hne
    refine ⟨{ e with
        PK := (FoodKeys.create userId input.date e.timestamp foodId).PK,
        SK := (FoodKeys.create userId input.date e.timestamp foodId).SK,
        name := input.name, protein := input.protein, carbs := input.carbs,
        fats := input.fats,
        calories := calculateCalories input.protein input.carbs input.fats,
        date := input.date, updatedAt := now },
      ?_, rfl, rfl, ?_, rfl, rfl, rfl, rfl, rfl, rfl, rfl, rfl, rfl, rfl⟩
    · unfold updateFoodHandler
      rw [hfind]
      dsimp only
      rw [if_pos hne]
    · refine ⟨(natStr e.timestamp ++ "#" ++ foodId).data, ?_⟩
      show _ ++ _ = ("FOOD#" ++ input.date ++ "#" ++ natStr e.timestamp ++ "#" ++ foodId).data
      simp [String.data_append]
  · intro heq
    refine ⟨{ e with
        name := input.name, protein := input.protein, carbs := input.carbs,
        fats := input.fats,
        calories := calculateCalories input.protein input.carbs input.fats,
        updatedAt := now },
      ?_, rfl, rfl, rfl, rfl, rfl, rfl, rfl, rfl, rfl, rfl, rfl, rfl, rfl, rfl⟩
    unfold updateFoodHandler
    rw [hfind]
    dsimp only
    rw [if_neg (fun hn => hn heq)]

/-- Witness for C9: updating `item0` (dated 2024-01-10) to 2024-01-20 moves
it; the relocated sort key is the concrete `FOOD#`-tagged key carrying the
new date, and `createdAt`/`timestamp`/`foodId` survive. -/
theorem update_date_change_witness :
    "2024-01-10" ≠ "2024-01-20" ∧
    movedNewSK (updateFoodHandler [item0] "u1" "food-1" updInput0
      "2024-01-21T09:00:00.000Z") = some "FOOD#2024-01-20#1705#food-1" := by
  refine ⟨by decide, ?_⟩
  obtain ⟨n, hrun, _hPK, hSK, _⟩ :=
    (update_date_change [item0] "u1" "food-1" updInput0 "2024-01-21T09:00:00.000Z"
      item0 (by decide)).1 (by decide)
  rw [hrun, movedNewSK, hSK]
  rw [show natStr item0.timestamp = "1705" from by decide]
  rfl

/-- Counterexample to C9 as stated: the re-inserted key of a date-changing
update is produced by `FoodKeys.create`, so it reads
`FOOD#2024-01-20#1705#food-1` — it carries the new date but bears no
`DATE#2024-01-20` fragment at all (no `DATE#` fragment even), contradicting
"reinserts it under a newly encoded key bearing DATE#{newDate}". -/
theorem update_rekey_counterexample :
    movedNewSK (updateFoodHandler [item0] "u1" "food-1" updInput0
      "2024-01-21T09:00:00.000Z") = some "FOOD#2024-01-20#1705#food-1" ∧
    containsSub "DATE#2024-01-20".data "FOOD#2024-01-20#1705#food-1".data = false ∧
    containsSub "DATE#".data "FOOD#2024-01-20#1705#food-1".data = false := by
  refine ⟨by decide, by decide, by decide⟩

/-! ## Claim C10 -/

/-- C10 (amended): after authentication and body parsing, the only field
validation the create handler performs is the name check — a missing,
non-string or blank name yields the 400 response "Name is required" before
any storage call (the `badRequest` outcome carries no item, so no write is
attempted); for every body with a usable name the handler proceeds straight
to the conditional put, coercing each macronutrient with
`parseFloat(x) || 0` instead of rejecting it, and no run with a usable name
ever produces status 400. -/
theorem create_validation_name_only (userId : String) (body : CreateBody)
    (foodId : String) (ts : Nat) (iso : String) :
    ((∀ s, body.name ≠ .str s) →
      createFoodHandler userId body foodId ts iso = .badRequest "Name is required") ∧
    (∀ s, body.name = .str s → jsTrimStr s = "" →
      createFoodHandler userId body foodId ts iso = .badRequest "Name is required") ∧
    (∀ s, body.name = .str s → jsTrimStr s ≠ "" →
      isBadRequest (createFoodHandler userId body foodId ts iso) = false ∧
      putProtein (createFoodHandler userId body foodId ts iso) =
        some (parseFloatOr0 body.protein) ∧
      (∀ put, createResponseStatus (createFoodHandler userId body foodId ts iso) put ≠ 400)) := by
  refine ⟨?_, ?_, ?_⟩
  · intro hns
    unfold createFoodHandler
    rcases hb : body.name with _ | _ | b | m | s | _ | _
    · rfl
    · rfl
    · rfl
    · rfl
    · exact absurd hb (hns s)
    · rfl
    · rfl
  · intro s hb ht
    unfold createFoodHandler
    rw [hb]
    dsimp only
    rw [if_pos ht]
  · intro s hb ht
    unfold createFoodHandler
    rw [hb]
    dsimp only
    rw [if_neg ht]
    refine ⟨rfl, rfl, ?_⟩
    intro put
    cases put <;> simp [createResponseStatus]
  
/-- Witness for C10 (amended): a body with a usable name but a thoroughly
malformed protein string is not rejected — the handler attempts the put with
the protein coerced. -/
theorem create_validation_name_only_witness :
    isBadRequest (createFoodHandler "u1"
      { name := .str "Test Food", protein := .str "abc",
        carbs := .num (.finite 0), fats := .num (.finite 3),
        date := some "2024-01-15" }
      "food-1" 1705 "2024-01-15T08:00:00.000Z") = false ∧
    putProtein (createFoodHandler "u1"
      { name := .str "Test Food", protein := .str "abc",
        carbs := .num (.finite 0), fats := .num (.finite 3),
        date := some "2024-01-15" }
      "food-1" 1705 "2024-01-15T08:00:00.000Z") =
      some (parseFloatOr0 (.str "abc")) :=
  ⟨((create_validation_name_only "u1"
      { name := .str "Test Food", protein := .str "abc",
        carbs := .num (.finite 0), fats := .num (.finite 3),
        date := some "2024-01-15" }
      "food-1" 1705 "2024-01-15T08:00:00.000Z").2.2 "Test Food" rfl
      (by decide)).1,
   ((create_validation_name_only "u1"
      { name := .str "Test Food", protein := .str "abc",
        carbs := .num (.finite 0), fats := .num (.finite 3),
        date := some "2024-01-15" }
      "food-1" 1705 "2024-01-15T08:00:00.000Z").2.2 "Test Food" rfl
      (by decide)).2.1⟩

/-- Counterexample to C10 as stated: a create request with the non-numeric
protein string `"abc"` is *not* answered with a 400 validation message — the
handler coerces the protein to 0 (`parseFloat('abc') || 0`), attempts the
storage write, and a successful put answers 201. -/
theorem create_malformed_protein_written :
    isBadRequest (createFoodHandler "u1"
      { name := .str "Test Food", protein := .str "abc",
        carbs := .num (.finite 0), fats := .num (.finite 3),
        date := some "2024-01-15" }
      "food-1" 1705 "2024-01-15T08:00:00.000Z") = false ∧
    putProtein (createFoodHandler "u1"
      { name := .str "Test Food", protein := .str "abc",
        carbs := .num (.finite 0), fats := .num (.finite 3),
        date := some "2024-01-15" }
      "food-1" 1705 "2024-01-15T08:00:00.000Z") = some 0 ∧
    putSK (createFoodHandler "u1"
      { name := .str "Test Food", protein := .str "abc",
        carbs := .num (.finite 0), fats := .num (.finite 3),
        date := some "2024-01-15" }
      "food-1" 1705 "2024-01-15T08:00:00.000Z") =
      some "DATE#2024-01-15#TIME#1705#FOOD#food-1" ∧
    createResponseStatus (createFoodHandler "u1"
      { name := .str "Test Food", protein := .str "abc",
        carbs := .num (.finite 0), fats := .num (.finite 3),
        date := some "2024-01-15" }
      "food-1" 1705 "2024-01-15T08:00:00.000Z") .success = 201 := by
  refine ⟨by decide, by decide, by decide, by decide⟩
